import Mathlib

/-!
Verification of the mlrun model-monitoring core against its source.

The development shallowly embeds the Python sources of the repository:

* `mlrun/model_monitoring/writer.py` — the event writer (`ModelMonitoringWriter`)
  and the notifier (`_Notifier`);
* `mlrun/model_monitoring/stores/tsdb/v3io/v3io_tsdb.py` — the frames-engine
  time-series store (`V3IOTSDBstore.write_application_event`);
* `mlrun/model_monitoring/db/tsdb/tdengine/tdengine_connector.py` — the
  tag-engine connector (`TDEngineConnector.write_application_event` and
  `read_metrics_data`);
* `mlrun/api/crud/model_monitoring/model_endpoint_stores/sql_model_endpoint_store.py`
  — the relational metadata store (`_ModelEndpointSQLStore.list_model_endpoints`).

Python dictionaries are embedded as explicit association sequences (`PyDict`),
Python runtime values as `PyVal`, raised exceptions as explicit error results,
and the I/O performed by the writer as an ordered trace of `Effect`s.
-/

/-! ## Python value model

`PyVal` models the Python runtime values that flow through the monitoring
pipeline: strings, integers, dictionaries (also the result of parsing a JSON
object), and `datetime` objects obtained from `datetime.fromisoformat` (kept
with the ISO string they were parsed from). `PyDict` is an insertion-ordered
association sequence, the embedding of a Python `dict` with string keys. -/

mutual

inductive PyVal where
  | str : String → PyVal
  | int : Int → PyVal
  | obj : PyDict → PyVal
  | dt : String → PyVal
  deriving Repr, DecidableEq

inductive PyDict where
  | nil : PyDict
  | cons : String → PyVal → PyDict → PyDict
  deriving Repr, DecidableEq

end

namespace PyDict

/-- `d.get k` — Python `d[k]` for a dict: the value at the first matching key,
`none` when the lookup would raise `KeyError`. -/
def get (d : PyDict) (k : String) : Option PyVal :=
  match d with
  | .nil => none
  | .cons k' v rest => if k' = k then some v else rest.get k

/-- Python `k in d`. -/
def hasKey (d : PyDict) (k : String) : Bool :=
  match d with
  | .nil => false
  | .cons k' _ rest => k' = k || rest.hasKey k

/-- Python `d[k] = v`: replace the value at `k` when present, append otherwise. -/
def set (d : PyDict) (k : String) (v : PyVal) : PyDict :=
  match d with
  | .nil => .cons k v .nil
  | .cons k' v' rest => if k' = k then .cons k' v rest else .cons k' v' (rest.set k v)

/-- Python `del d[k]` / the removal part of `d.pop(k)`. A Python dict binds
each key at most once, so dropping every binding of `k` coincides with
deleting its entry. -/
def remove (d : PyDict) (k : String) : PyDict :=
  match d with
  | .nil => .nil
  | .cons k' v' rest => if k' = k then rest.remove k else .cons k' v' (rest.remove k)

end PyDict

/-! ## C2 — tag-engine subtable naming

`TDEngineConnector.write_application_event`
(`mlrun/model_monitoring/db/tsdb/tdengine/tdengine_connector.py`, lines 86–105)
synthesizes the subtable name as

    table_name = f"{self.project}_{event[ENDPOINT_ID]}_{event[APPLICATION_NAME]}_"
    table_name = (f"{table_name}_" f"{event[RESULT_NAME]}").replace("-", "_")

(the metric branch is identical with `METRIC_NAME` in place of `RESULT_NAME`).
-/

/-- Python `s.replace("-", "_")`: both pattern and replacement are single
characters, so the replacement is a character map. -/
def replaceDashes (s : String) : String :=
  String.mk (s.data.map fun c => if c = '-' then '_' else c)

/-- The subtable name synthesized by `TDEngineConnector.write_application_event`
for a (project, endpoint id, application name, metric/result name) tuple. -/
def tdengineSubtableName (project endpointId appName name : String) : String :=
  replaceDashes ((project ++ "_" ++ endpointId ++ "_" ++ appName ++ "_") ++ "_" ++ name)

/-- A component over the restricted identifier alphabet: it contains neither
the `_` delimiter nor the `-` character that the backend sanitization rewrites. -/
def cleanComponent (s : String) : Bool :=
  s.data.all fun c => c ≠ '_' && c ≠ '-'

theorem map_dash_id {l : List Char} (h : ∀ c ∈ l, c ≠ '-') :
    l.map (fun c => if c = '-' then '_' else c) = l := by
  induction l with
  | nil => rfl
  | cons c cs ih =>
    simp only [List.map_cons, List.cons.injEq]
    exact ⟨if_neg (h c (List.mem_cons_self c cs)),
      ih fun d hd => h d (List.mem_cons_of_mem _ hd)⟩

theorem replaceDashes_eq_self {s : String} (h : ∀ c ∈ s.data, c ≠ '-') :
    replaceDashes s = s := by
  unfold replaceDashes
  rw [map_dash_id h]

/-- Lists that agree up to the first occurrence of a delimiter agree on both
sides of it. -/
theorem append_delim_inj {l₁ l₂ r₁ r₂ : List Char}
    (h₁ : '_' ∉ l₁) (h₂ : '_' ∉ l₂)
    (h : l₁ ++ '_' :: r₁ = l₂ ++ '_' :: r₂) : l₁ = l₂ ∧ r₁ = r₂ := by
  induction l₁ generalizing l₂ with
  | nil =>
    cases l₂ with
    | nil => simpa using h
    | cons c cs =>
      simp only [List.nil_append, List.cons_append, List.cons.injEq] at h
      exact absurd (show '_' ∈ c :: cs by rw [← h.1]; exact List.mem_cons_self _ _) h₂
  | cons c cs ih =>
    cases l₂ with
    | nil =>
      simp only [List.cons_append, List.nil_append, List.cons.injEq] at h
      exact absurd (show '_' ∈ c :: cs by rw [h.1]; exact List.mem_cons_self _ _) h₁
    | cons c' cs' =>
      simp only [List.cons_append, List.cons.injEq] at h
      obtain ⟨rfl, h⟩ := h
      have := ih (fun hm => h₁ (List.mem_cons_of_mem _ hm))
        (fun hm => h₂ (List.mem_cons_of_mem _ hm)) h
      exact ⟨by rw [this.1], this.2⟩

theorem cleanComponent_no_underscore {s : String} (h : cleanComponent s = true) :
    '_' ∉ s.data := by
  intro hm
  have := (List.all_eq_true.mp h) _ hm
  simp at this

theorem cleanComponent_no_dash {s : String} (h : cleanComponent s = true) :
    ∀ c ∈ s.data, c ≠ '-' := by
  intro c hm
  have := (List.all_eq_true.mp h) _ hm
  exact fun hc => by simp [hc] at this

/-- C2, counterexample: the two tuples (`"p"`, `"e"`, `"a"`, `"x-y"`) and
(`"p"`, `"e"`, `"a"`, `"x_y"`) are distinct, yet the synthesized subtable names
coincide (the hyphen is rewritten to an underscore after concatenation), so the
naming is not injective on all distinct tuples. -/
theorem claim_C2_counterexample :
    tdengineSubtableName "p" "e" "a" "x-y" = tdengineSubtableName "p" "e" "a" "x_y" ∧
      ("x-y" : String) ≠ "x_y" := by
  constructor
  · rfl
  · decide

/-- C2, amended: the subtable name synthesized by the tag-engine append is
deterministic, and it is injective on tuples whose components contain neither
`_` (the delimiter) nor `-` (the sanitized character): for such tuples the
names agree exactly when the (project, endpoint id, application name,
metric/result name) tuples agree. -/
theorem claim_C2_amended
    (p₁ e₁ a₁ n₁ p₂ e₂ a₂ n₂ : String)
    (hp₁ : cleanComponent p₁ = true) (he₁ : cleanComponent e₁ = true)
    (ha₁ : cleanComponent a₁ = true) (hn₁ : cleanComponent n₁ = true)
    (hp₂ : cleanComponent p₂ = true) (he₂ : cleanComponent e₂ = true)
    (ha₂ : cleanComponent a₂ = true) (hn₂ : cleanComponent n₂ = true) :
    tdengineSubtableName p₁ e₁ a₁ n₁ = tdengineSubtableName p₂ e₂ a₂ n₂ ↔
      (p₁ = p₂ ∧ e₁ = e₂ ∧ a₁ = a₂ ∧ n₁ = n₂) := by
  constructor
  · intro h
    have nodash : ∀ {p e a n : String}, cleanComponent p = true →
        cleanComponent e = true → cleanComponent a = true → cleanComponent n = true →
        ∀ c ∈ ((p ++ "_" ++ e ++ "_" ++ a ++ "_") ++ "_" ++ n).data, c ≠ '-' := by
      intro p e a n hp he ha hn c hc
      simp only [String.data_append, List.mem_append, List.mem_singleton] at hc
      rcases hc with ((((((hc | hc) | hc) | hc) | hc) | hc) | hc) | hc
      · exact cleanComponent_no_dash hp c hc
      · simp [hc]
      · exact cleanComponent_no_dash he c hc
      · simp [hc]
      · exact cleanComponent_no_dash ha c hc
      · simp [hc]
      · simp [hc]
      · exact cleanComponent_no_dash hn c hc
    rw [tdengineSubtableName, tdengineSubtableName,
      replaceDashes_eq_self (nodash hp₁ he₁ ha₁ hn₁),
      replaceDashes_eq_self (nodash hp₂ he₂ ha₂ hn₂)] at h
    have hdata := congrArg String.data h
    simp only [String.data_append, List.append_assoc, List.singleton_append,
      List.cons_append] at hdata
    have s₁ := append_delim_inj (cleanComponent_no_underscore hp₁)
      (cleanComponent_no_underscore hp₂) hdata
    have s₂ := append_delim_inj (cleanComponent_no_underscore he₁)
      (cleanComponent_no_underscore he₂) s₁.2
    have s₃ := append_delim_inj (cleanComponent_no_underscore ha₁)
      (cleanComponent_no_underscore ha₂) s₂.2
    have hn : n₁.data = n₂.data := by
      have := s₃.2
      simpa using this
    refine ⟨?_, ?_, ?_, ?_⟩
    · cases p₁; cases p₂; exact congrArg String.mk (by simpa using s₁.1)
    · cases e₁; cases e₂; exact congrArg String.mk (by simpa using s₂.1)
    · cases a₁; cases a₂; exact congrArg String.mk (by simpa using s₃.1)
    · cases n₁; cases n₂; exact congrArg String.mk (by simpa using hn)
  · rintro ⟨rfl, rfl, rfl, rfl⟩
    rfl

/-- C2, witness: concrete application of the amended statement — two tuples
over the restricted alphabet that differ only in the result name synthesize
distinct subtable names. -/
theorem claim_C2_amended_witness :
    tdengineSubtableName "proj" "ep1" "app" "m1" ≠
      tdengineSubtableName "proj" "ep1" "app" "m2" := by
  intro h
  have := (claim_C2_amended "proj" "ep1" "app" "m1" "proj" "ep1" "app" "m2"
    (by decide) (by decide) (by decide) (by decide)
    (by decide) (by decide) (by decide) (by decide)).mp h
  exact absurd this.2.2.2 (by decide)

/-! ## Writer events, errors and effects

`mlrun/model_monitoring/writer.py` defines the error classes
`_WriterEventValueError` (raised when the raw event misses declared keys) and
`_WriterEventTypeError` (raised when the raw event is not a dictionary).
`PyErr` embeds them together with the primitive Python exceptions the writer
code can raise or see from its backends. -/

inductive PyErr where
  | keyError
  | typeError
  | jsonDecodeError
  | writerEventValueError
  | writerEventTypeError
  | framesError (msg : String)
  | otherError (msg : String)
  | badRequestError (msg : String)
  deriving Repr, DecidableEq

/-- A raw stream record: either a key/value mapping or some non-mapping value
(kept with its textual form). Subscripting a non-mapping with a string key
raises `TypeError` in Python. -/
inductive RawEvent where
  | dict : PyDict → RawEvent
  | nonDict : String → RawEvent
  deriving Repr, DecidableEq

namespace WriterEvent

def ENDPOINT_ID : String := "endpoint_id"
def APPLICATION_NAME : String := "application_name"
def START_INFER_TIME : String := "start_infer_time"
def END_INFER_TIME : String := "end_infer_time"
def RESULT_NAME : String := "result_name"
def RESULT_KIND : String := "result_kind"
def RESULT_VALUE : String := "result_value"
def RESULT_STATUS : String := "result_status"
def RESULT_EXTRA_DATA : String := "result_extra_data"
def CURRENT_STATS : String := "current_stats"

end WriterEvent

/-- Modelled from the spec: the declared writer-event field set
(`WriterEvent.list()`; the constants module defining the `WriterEvent` enum is
not among the sources). §3 declares the fields of a result/metric event:
endpoint id, application name, metric/result name, kind discriminator,
start/end inference timestamps, numeric value, status code, extra data, and the
serialized current-stats blob. -/
def writerEventFields : List String :=
  [WriterEvent.ENDPOINT_ID, WriterEvent.APPLICATION_NAME,
   WriterEvent.START_INFER_TIME, WriterEvent.END_INFER_TIME,
   WriterEvent.RESULT_NAME, WriterEvent.RESULT_KIND, WriterEvent.RESULT_VALUE,
   WriterEvent.RESULT_STATUS, WriterEvent.RESULT_EXTRA_DATA,
   WriterEvent.CURRENT_STATS]

/-- Modelled from the spec: `ResultStatusApp.detected`, the top of the ordered
status scale no-anomaly = 0, possible = 1, detected = 2 (§4.5; the constants
module defining the enum is not among the sources). -/
def detectedStatus : Int := 2

/-- Modelled from the spec: `NotificationSeverity.WARNING` of the severity enum
\x7binfo, warning, error\x7d (§6; the notification schema module is not among
the sources). -/
def severityWarning : String := "warning"

/-- The observable side effects of the writer pipeline, in execution order. -/
inductive Effect where
  | tsdbWrite (record : PyDict) (indexCols : List String)
  | kvUpdate (container tablePath : String) (key : PyVal) (attrKey : PyVal) (attrValue : String)
  | kvCreateSchema (container tablePath : String) (key : String)
  | push (message : String) (severity : String)
  deriving Repr, DecidableEq

/-! ## Event reconstruction (`ModelMonitoringWriter._reconstruct_event`)

Source (`writer.py`, lines 257–279): project the raw event onto
`WriterEvent.list()` by a dict comprehension, then replace the current-stats
entry by `json.loads` of its value; `except KeyError` re-raises as
`_WriterEventValueError` and `except TypeError` as `_WriterEventTypeError`.
`json.loads` is embedded as an explicit parameter `loads` standing for the
Python standard-library JSON parser: `loads s = none` exactly when
`json.loads(s)` raises `json.JSONDecodeError` (a `ValueError`, caught by
neither except clause). -/

/-- The dict comprehension `{key: event[key] for key in keys}`: `none` when a
lookup raises `KeyError`. -/
def projectFields (keys : List String) (d : PyDict) : Option PyDict :=
  match keys with
  | [] => some .nil
  | k :: ks =>
    match d.get k with
    | none => none
    | some v => (projectFields ks d).map (PyDict.cons k v)

/-- The body of the `try` block of `_reconstruct_event`, raising primitive
Python exceptions. -/
def reconstructBody (loads : String → Option PyVal) (event : RawEvent) :
    Except PyErr PyDict :=
  match event with
  | .nonDict _ => .error .typeError
  | .dict d =>
    match projectFields writerEventFields d with
    | none => .error .keyError
    | some proj =>
      match d.get WriterEvent.CURRENT_STATS with
      | none => .error .keyError
      | some (.str s) =>
        match loads s with
        | some v => .ok (proj.set WriterEvent.CURRENT_STATS v)
        | none => .error .jsonDecodeError
      | some _ => .error .typeError
  
/-- `_reconstruct_event`: the `try` body with the two `except` clauses mapping
`KeyError` to `_WriterEventValueError` and `TypeError` to
`_WriterEventTypeError`; every other exception escapes unchanged. -/
def reconstruct_event (loads : String → Option PyVal) (event : RawEvent) :
    Except PyErr PyDict :=
  match reconstructBody loads event with
  | .ok e => .ok e
  | .error .keyError => .error .writerEventValueError
  | .error .typeError => .error .writerEventTypeError
  | .error e => .error e

/-- Single-motive structural induction for `PyDict` (the mutually defined
recursor is inconvenient for the `induction` tactic). -/
theorem PyDict.inductionOn {motive : PyDict → Prop} (d : PyDict)
    (nil : motive .nil)
    (cons : ∀ k v rest, motive rest → motive (.cons k v rest)) : motive d :=
  match d with
  | .nil => nil
  | .cons k v rest => cons k v rest (rest.inductionOn nil cons)

theorem PyDict.get_of_hasKey {d : PyDict} {k : String} (h : d.hasKey k = true) :
    ∃ v, d.get k = some v := by
  induction d using PyDict.inductionOn with
  | nil => simp [PyDict.hasKey] at h
  | cons k' v' rest ih =>
    by_cases hk : k' = k
    · exact ⟨v', by simp [PyDict.get, hk]⟩
    · simp [PyDict.hasKey, hk] at h
      obtain ⟨v, hv⟩ := ih h
      exact ⟨v, by simp [PyDict.get, hk, hv]⟩

theorem PyDict.get_set (d : PyDict) (k : String) (v : PyVal) :
    (d.set k v).get k = some v := by
  induction d using PyDict.inductionOn with
  | nil => simp [PyDict.set, PyDict.get]
  | cons k' v' rest ih =>
    by_cases hk : k' = k
    · simp [PyDict.set, PyDict.get, hk]
    · simp [PyDict.set, PyDict.get, hk, ih]

theorem projectFields_isSome {keys : List String} {d : PyDict}
    (h : ∀ k ∈ keys, d.hasKey k = true) : ∃ p, projectFields keys d = some p := by
  induction keys with
  | nil => exact ⟨.nil, rfl⟩
  | cons k ks ih =>
    obtain ⟨v, hv⟩ := PyDict.get_of_hasKey (h k (List.mem_cons_self _ _))
    obtain ⟨p, hp⟩ := ih fun k' hk' => h k' (List.mem_cons_of_mem _ hk')
    exact ⟨.cons k v p, by simp [projectFields, hv, hp]⟩

theorem projectFields_eq_none {keys : List String} {d : PyDict} {k : String}
    (hk : k ∈ keys) (h : d.hasKey k = false) : projectFields keys d = none := by
  induction keys with
  | nil => cases hk
  | cons k' ks ih =>
    rcases List.mem_cons.mp hk with rfl | hk'
    · rcases hg : d.get k with _ | v
      · simp [projectFields, hg]
      · exfalso
        have : d.hasKey k = true := by
          clear h ih hk
          induction d using PyDict.inductionOn with
          | nil => simp [PyDict.get] at hg
          | cons a b rest ihd =>
            by_cases ha : a = k
            · simp [PyDict.hasKey, ha]
            · simp [PyDict.get, ha] at hg
              simp [PyDict.hasKey, ha, ihd hg]
        rw [this] at h; cases h
    · rcases hg : d.get k' with _ | v
      · simp [projectFields, hg]
      · simp [projectFields, hg, ih hk']

/-! ## String rendering of Python values

`str()` as used by f-string interpolation, and `json.dumps` as used by
`_update_kv_db` and by the label filter of the SQL store. `json.dumps` raises
`TypeError` on values it cannot serialize (for example `datetime` objects), so
it is embedded as a fallible function. -/

mutual

/-- Python `str(v)` as interpolated by an f-string. -/
def pyToStr : PyVal → String
  | .str s => s
  | .int n => toString n
  | .obj d => "\x7b" ++ pyDictToStr d ++ "\x7d"
  | .dt s => s

def pyDictToStr : PyDict → String
  | .nil => ""
  | .cons k v .nil => "\x27" ++ k ++ "\x27: " ++ pyToStr v
  | .cons k v rest => "\x27" ++ k ++ "\x27: " ++ pyToStr v ++ ", " ++ pyDictToStr rest

end

/-- JSON string escaping of `"` and `\`. -/
def escapeJson (s : String) : String :=
  String.mk (s.data.flatMap fun c =>
    if c = '"' then ['\\', '"'] else if c = '\\' then ['\\', '\\'] else [c])

mutual

/-- Python `json.dumps(v)`; `TypeError` on a non-serializable value. -/
def jsonDumps : PyVal → Except PyErr String
  | .str s => .ok ("\"" ++ escapeJson s ++ "\"")
  | .int n => .ok (toString n)
  | .obj d => do pure ("\x7b" ++ (← jsonDumpsDict d) ++ "\x7d")
  | .dt _ => .error .typeError

def jsonDumpsDict : PyDict → Except PyErr String
  | .nil => .ok ""
  | .cons k v .nil => do pure ("\"" ++ escapeJson k ++ "\": " ++ (← jsonDumps v))
  | .cons k v rest => do
    pure ("\"" ++ escapeJson k ++ "\": " ++ (← jsonDumps v) ++ ", " ++ (← jsonDumpsDict rest))

end

/-! ## C1 — the notifier (`_Notifier`, `writer.py` lines 50–91) -/

namespace Notifier

/-- `_should_send_event`: `self._event[RESULT_STATUS] >= ResultStatusApp.detected`.
A missing key raises `KeyError`; comparing a non-integer status against the
integer enum raises `TypeError`. -/
def should_send_event (e : PyDict) : Except PyErr Bool :=
  match e.get WriterEvent.RESULT_STATUS with
  | none => .error .keyError
  | some (.int n) => .ok (decide (detectedStatus ≤ n))
  | some _ => .error .typeError

/-- `_generate_message`: the fixed f-string template over the event's fields
(a missing field raises `KeyError`). -/
def generate_message (e : PyDict) : Except PyErr String :=
  match e.get WriterEvent.APPLICATION_NAME, e.get WriterEvent.RESULT_KIND,
      e.get WriterEvent.ENDPOINT_ID, e.get WriterEvent.START_INFER_TIME,
      e.get WriterEvent.RESULT_NAME, e.get WriterEvent.RESULT_VALUE,
      e.get WriterEvent.RESULT_STATUS, e.get WriterEvent.RESULT_EXTRA_DATA with
  | some app, some kind, some ep, some start, some nm, some v, some st, some x =>
    .ok ("The monitoring app `" ++ pyToStr app ++ "` of kind `" ++ pyToStr kind ++
      "` detected a problem in model endpoint ID `" ++ pyToStr ep ++
      "` at time `" ++ pyToStr start ++ "`.\n\nResult data:\nName: `" ++
      pyToStr nm ++ "`\nValue: `" ++ pyToStr v ++ "`\nStatus: `" ++ pyToStr st ++
      "`\nExtra data: `" ++ pyToStr x ++ "`")
  | _, _, _, _, _, _, _, _ => .error .keyError

/-- The outcome of `_Notifier.notify`: the pushes performed, the debug log
lines, and the exception that escaped, if any. -/
structure Result where
  effects : List Effect
  logs : List String
  err : Option PyErr
  deriving Repr, DecidableEq

/-- `_Notifier.notify`: return silently when the threshold comparison is
false; otherwise render the message and make a single
`push(message, severity=WARNING)` call. -/
def notify (e : PyDict) : Result :=
  match should_send_event e with
  | .error err => ⟨[], [], some err⟩
  | .ok false => ⟨[], ["Not sending a notification"], none⟩
  | .ok true =>
    match generate_message e with
    | .error err => ⟨[], [], some err⟩
    | .ok msg =>
      ⟨[Effect.push msg severityWarning], ["A notification should have been sent"], none⟩

end Notifier

/-- C1: for every reconstructed result event (all declared fields present,
integer result status `n`), the notifier delivers a notification iff
`n ≥ detected = 2`; when it fires it makes exactly one delivery call, with
severity `warning`; below the threshold it makes zero delivery calls; no
exception escapes. -/
theorem claim_C1 (e : PyDict) (n : Int)
    (hall : ∀ k ∈ writerEventFields, e.hasKey k = true)
    (hst : e.get WriterEvent.RESULT_STATUS = some (.int n)) :
    (detectedStatus ≤ n →
      ∃ msg, (Notifier.notify e).effects = [Effect.push msg severityWarning]) ∧
    (n < detectedStatus → (Notifier.notify e).effects = []) ∧
    (Notifier.notify e).err = none := by
  obtain ⟨va, hva⟩ := PyDict.get_of_hasKey (hall WriterEvent.APPLICATION_NAME (by decide))
  obtain ⟨vk, hvk⟩ := PyDict.get_of_hasKey (hall WriterEvent.RESULT_KIND (by decide))
  obtain ⟨ve, hve⟩ := PyDict.get_of_hasKey (hall WriterEvent.ENDPOINT_ID (by decide))
  obtain ⟨vt, hvt⟩ := PyDict.get_of_hasKey (hall WriterEvent.START_INFER_TIME (by decide))
  obtain ⟨vn, hvn⟩ := PyDict.get_of_hasKey (hall WriterEvent.RESULT_NAME (by decide))
  obtain ⟨vv, hvv⟩ := PyDict.get_of_hasKey (hall WriterEvent.RESULT_VALUE (by decide))
  obtain ⟨vx, hvx⟩ := PyDict.get_of_hasKey (hall WriterEvent.RESULT_EXTRA_DATA (by decide))
  by_cases hn : detectedStatus ≤ n
  · refine ⟨fun _ => ?_, fun hlt => absurd hn (not_le.mpr hlt), ?_⟩ <;>
      simp [Notifier.notify, Notifier.should_send_event, hst, hn,
        Notifier.generate_message, hva, hvk, hve, hvt, hvn, hvv, hvx]
  · refine ⟨fun hge => absurd hge hn, fun _ => ?_, ?_⟩ <;>
      simp [Notifier.notify, Notifier.should_send_event, hst, hn]

/-- A concrete well-formed event, matching the spec's scenario: application
`dummy-app`, endpoint `ep-1`, with the given result status. -/
def sampleEvent (status : Int) : PyDict :=
  .cons WriterEvent.ENDPOINT_ID (.str "ep-1")
    (.cons WriterEvent.APPLICATION_NAME (.str "dummy-app")
      (.cons WriterEvent.START_INFER_TIME (.str "2023-09-19 14:26:06.501084")
        (.cons WriterEvent.END_INFER_TIME (.str "2023-09-19 16:26:06.501084")
          (.cons WriterEvent.RESULT_NAME (.str "data-drift-0")
            (.cons WriterEvent.RESULT_KIND (.int 0)
              (.cons WriterEvent.RESULT_VALUE (.int 0)
                (.cons WriterEvent.RESULT_STATUS (.int status)
                  (.cons WriterEvent.RESULT_EXTRA_DATA (.str "")
                    (.cons WriterEvent.CURRENT_STATS (.obj .nil) .nil)))))))))

/-- C1, witness: status 2 on `dummy-app`/`ep-1` yields exactly one delivery
call with severity `warning`; statuses 1 and 0 yield zero delivery calls. -/
theorem claim_C1_witness :
    (∃ msg, (Notifier.notify (sampleEvent 2)).effects = [Effect.push msg severityWarning]) ∧
    (Notifier.notify (sampleEvent 1)).effects = [] ∧
    (Notifier.notify (sampleEvent 0)).effects = [] :=
  ⟨(claim_C1 (sampleEvent 2) 2 (by decide) (by decide)).1 (by decide),
   (claim_C1 (sampleEvent 1) 1 (by decide) (by decide)).2.1 (by decide),
   (claim_C1 (sampleEvent 0) 0 (by decide) (by decide)).2.1 (by decide)⟩

/-! ## C4 / C5 — `_reconstruct_event` outcomes -/

/-- C4: reconstruction is decided by the shape of the input. (i) A mapping with
every declared writer-event field whose current-stats value is a string the
JSON parser accepts reconstructs successfully, and the resulting typed event
holds the parsed object under the current-stats field. (ii) A mapping missing
at least one declared field fails with `_WriterEventValueError` (the
IncompleteEvent error). (iii) A non-mapping input fails with
`_WriterEventTypeError` (the MalformedEvent error). -/
theorem claim_C4 (loads : String → Option PyVal) :
    (∀ (d : PyDict) (s : String) (j : PyVal),
      (∀ k ∈ writerEventFields, d.hasKey k = true) →
      d.get WriterEvent.CURRENT_STATS = some (.str s) →
      loads s = some j →
      ∃ e, reconstruct_event loads (.dict d) = .ok e ∧
        e.get WriterEvent.CURRENT_STATS = some j) ∧
    (∀ d : PyDict, (∃ k, k ∈ writerEventFields ∧ d.hasKey k = false) →
      reconstruct_event loads (.dict d) = .error .writerEventValueError) ∧
    (∀ r : String, reconstruct_event loads (.nonDict r) = .error .writerEventTypeError) := by
  refine ⟨?_, ?_, fun r => rfl⟩
  · intro d s j hall hstats hparse
    obtain ⟨p, hp⟩ := projectFields_isSome hall
    refine ⟨p.set WriterEvent.CURRENT_STATS j, ?_, PyDict.get_set _ _ _⟩
    simp [reconstruct_event, reconstructBody, hp, hstats, hparse]
  · intro d ⟨k, hk, hfalse⟩
    simp [reconstruct_event, reconstructBody, projectFields_eq_none hk hfalse]

/-- A concrete model of `json.loads` for the witnesses: it accepts exactly the
string `{"k": 1}` (as `json.loads` would, returning the parsed object) and
rejects everything else as a JSON decode error. -/
def loadsExample : String → Option PyVal := fun s =>
  if s = "\x7b\"k\": 1\x7d" then some (.obj (.cons "k" (.int 1) .nil)) else none

/-- A raw (pre-reconstruction) event: all ten declared fields, with the
current-stats field still a JSON-encoded string. -/
def rawSampleEvent (stats : String) : PyDict :=
  .cons WriterEvent.ENDPOINT_ID (.str "ep-1")
    (.cons WriterEvent.APPLICATION_NAME (.str "dummy-app")
      (.cons WriterEvent.START_INFER_TIME (.str "2023-09-19 14:26:06.501084")
        (.cons WriterEvent.END_INFER_TIME (.str "2023-09-19 16:26:06.501084")
          (.cons WriterEvent.RESULT_NAME (.str "data-drift-0")
            (.cons WriterEvent.RESULT_KIND (.int 0)
              (.cons WriterEvent.RESULT_VALUE (.int 0)
                (.cons WriterEvent.RESULT_STATUS (.int 2)
                  (.cons WriterEvent.RESULT_EXTRA_DATA (.str "")
                    (.cons WriterEvent.CURRENT_STATS (.str stats) .nil)))))))))

/-- C4, witness: a complete record with stats string `{"k": 1}` reconstructs to
an event holding the parsed object; a record holding only the endpoint id fails
with the IncompleteEvent error; the non-mapping input `"key1:val1,key2:val2"`
fails with the MalformedEvent error. -/
theorem claim_C4_witness :
    (∃ e, reconstruct_event loadsExample (.dict (rawSampleEvent "\x7b\"k\": 1\x7d")) = .ok e ∧
      e.get WriterEvent.CURRENT_STATS = some (.obj (.cons "k" (.int 1) .nil))) ∧
    reconstruct_event loadsExample
      (.dict (.cons WriterEvent.ENDPOINT_ID (.str "ep2211") .nil)) =
      .error .writerEventValueError ∧
    reconstruct_event loadsExample (.nonDict "key1:val1,key2:val2") =
      .error .writerEventTypeError :=
  ⟨(claim_C4 loadsExample).1 (rawSampleEvent "\x7b\"k\": 1\x7d") "\x7b\"k\": 1\x7d"
      (.obj (.cons "k" (.int 1) .nil)) (by decide) (by decide) (by decide),
   (claim_C4 loadsExample).2.1 _
      ⟨WriterEvent.APPLICATION_NAME, by decide, by decide⟩,
   (claim_C4 loadsExample).2.2 _⟩

/-- C5, counterexample: a complete record whose current-stats string is not
valid JSON does not land in one of the writer's event errors — the JSON decode
error (a `ValueError` caught by neither except clause of
`_reconstruct_event`) escapes, so the claim that such an event is rejected
with a writer event error is false at this input. -/
theorem claim_C5_counterexample :
    reconstruct_event loadsExample (.dict (rawSampleEvent "not valid json")) =
      .error .jsonDecodeError ∧
    PyErr.jsonDecodeError ≠ .writerEventValueError ∧
    PyErr.jsonDecodeError ≠ .writerEventTypeError := by
  refine ⟨rfl, by decide, by decide⟩

/-- C5, amended: for every input record whose current-stats field is a string
the JSON parser rejects, event reconstruction fails — but with the JSON decode
error, which is not one of the writer's event errors: it escapes the writer's
`except KeyError` / `except TypeError` clauses instead of being wrapped. -/
theorem claim_C5_amended (loads : String → Option PyVal) (d : PyDict) (s : String)
    (hall : ∀ k ∈ writerEventFields, d.hasKey k = true)
    (hstats : d.get WriterEvent.CURRENT_STATS = some (.str s))
    (hbad : loads s = none) :
    reconstruct_event loads (.dict d) = .error .jsonDecodeError ∧
    PyErr.jsonDecodeError ≠ .writerEventValueError ∧
    PyErr.jsonDecodeError ≠ .writerEventTypeError := by
  obtain ⟨p, hp⟩ := projectFields_isSome hall
  exact ⟨by simp [reconstruct_event, reconstructBody, hp, hstats, hbad],
    by decide, by decide⟩

/-- C5, amended witness: the concrete complete record with stats
`"not valid json"` under the concrete parser. -/
theorem claim_C5_amended_witness :
    reconstruct_event loadsExample (.dict (rawSampleEvent "not valid json")) =
      .error .jsonDecodeError ∧
    PyErr.jsonDecodeError ≠ .writerEventValueError ∧
    PyErr.jsonDecodeError ≠ .writerEventTypeError :=
  claim_C5_amended loadsExample (rawSampleEvent "not valid json") "not valid json"
    (by decide) (by decide) (by decide)

/-! ## C3 / C7 — the frames-engine store
(`V3IOTSDBstore.write_application_event`, `v3io_tsdb.py` lines 152–177)

Source behavior: copy the event, convert the end-infer time with
`datetime.fromisoformat`, `del` the extra-data field, then attempt a single
`frames_client.write` with the fixed index columns; a `v3io_frames` `Error` is
caught and logged with `logger.warn`, any other exception propagates. The
backend's behavior is a parameter `FramesOutcome`. -/

inductive FramesOutcome where
  | success
  | framesError (msg : String)
  | otherError (msg : String)
  deriving Repr, DecidableEq

/-- The outcome of a store call: the effect trace, the log lines, the
exception that escaped (if any), and the dict the caller's reference points to
after the call. -/
structure WriteResult where
  effects : List Effect
  logs : List String
  err : Option PyErr
  callerEvent : PyDict
  deriving Repr, DecidableEq

def v3ioTsdbIndexCols : List String :=
  [WriterEvent.END_INFER_TIME, WriterEvent.ENDPOINT_ID,
   WriterEvent.APPLICATION_NAME, WriterEvent.RESULT_NAME]

/-- `V3IOTSDBstore.write_application_event`. The first statement rebinds the
local name to `AppResultEvent(event.copy())`, so every mutation below acts on
the copy and the caller's dict is returned unchanged. -/
def v3io_write_application_event (outcome : FramesOutcome) (event : PyDict) :
    WriteResult :=
  match event.get WriterEvent.END_INFER_TIME with
  | none => ⟨[], [], some .keyError, event⟩
  | some (.str s) =>
    let copy₁ := event.set WriterEvent.END_INFER_TIME (.dt s)
    if copy₁.hasKey WriterEvent.RESULT_EXTRA_DATA then
      let copy₂ := copy₁.remove WriterEvent.RESULT_EXTRA_DATA
      match outcome with
      | .success =>
        ⟨[.tsdbWrite copy₂ v3ioTsdbIndexCols], ["Updated V3IO TSDB successfully"],
          none, event⟩
      | .framesError m =>
        ⟨[.tsdbWrite copy₂ v3ioTsdbIndexCols],
          ["Could not write drift measures to TSDB: " ++ m], none, event⟩
      | .otherError m =>
        ⟨[.tsdbWrite copy₂ v3ioTsdbIndexCols], [], some (.otherError m), event⟩
    else ⟨[], [], some .keyError, event⟩
  | some _ => ⟨[], [], some .typeError, event⟩

def Effect.isTsdbWrite : Effect → Bool
  | .tsdbWrite _ _ => true
  | _ => false

theorem PyDict.hasKey_remove (d : PyDict) (k : String) :
    (d.remove k).hasKey k = false := by
  induction d using PyDict.inductionOn with
  | nil => rfl
  | cons k' v' rest ih =>
    by_cases hk : k' = k
    · simp [PyDict.remove, hk, ih]
    · simp [PyDict.remove, PyDict.hasKey, hk, ih]

/-- C7: for every event with a string end-infer time and a present extra-data
field, and for every backend outcome, the frames-engine append writes exactly
one row; the written record does not contain the extra-data field, and the row
is indexed by (end-infer time, endpoint id, application name, result name). -/
theorem claim_C7 (event : PyDict) (s : String) (outcome : FramesOutcome)
    (hend : event.get WriterEvent.END_INFER_TIME = some (.str s))
    (hx : (event.set WriterEvent.END_INFER_TIME (.dt s)).hasKey
      WriterEvent.RESULT_EXTRA_DATA = true) :
    ((v3io_write_application_event outcome event).effects.countP Effect.isTsdbWrite = 1) ∧
    (∀ rec cols, Effect.tsdbWrite rec cols ∈
        (v3io_write_application_event outcome event).effects →
      rec.hasKey WriterEvent.RESULT_EXTRA_DATA = false ∧ cols = v3ioTsdbIndexCols) := by
  cases outcome <;>
    simp [v3io_write_application_event, hend, hx, List.countP, List.countP.go,
      Effect.isTsdbWrite, PyDict.hasKey_remove]

/-- C7, witness: the concrete sample event under a successful backend. -/
theorem claim_C7_witness :
    ((v3io_write_application_event .success (sampleEvent 2)).effects.countP
      Effect.isTsdbWrite = 1) ∧
    (∀ rec cols, Effect.tsdbWrite rec cols ∈
        (v3io_write_application_event .success (sampleEvent 2)).effects →
      rec.hasKey WriterEvent.RESULT_EXTRA_DATA = false ∧ cols = v3ioTsdbIndexCols) :=
  claim_C7 (sampleEvent 2) "2023-09-19 16:26:06.501084" .success (by decide) (by decide)

/-- C3, counterexample: when the frames backend fails the write (a
`v3io_frames` `Error`), `write_application_event` returns normally — the error
is caught and logged, not surfaced to the caller of the event writer — so the
claim that a backend write failure propagates uncaught is false at this
input. -/
theorem claim_C3_counterexample :
    (v3io_write_application_event (.framesError "backend boom") (sampleEvent 2)).err =
      none ∧
    (v3io_write_application_event (.framesError "backend boom") (sampleEvent 2)).logs =
      ["Could not write drift measures to TSDB: backend boom"] := by
  exact ⟨rfl, rfl⟩

/-- C3, amended: a frames backend write failure during the time-series append
is caught inside the store and logged with the backend's diagnostic message —
it is not surfaced to the caller; an exception of any other type propagates
uncaught, carrying its message; in every case the store attempts the write
exactly once (no retry). -/
theorem claim_C3_amended (event : PyDict) (s : String)
    (hend : event.get WriterEvent.END_INFER_TIME = some (.str s))
    (hx : (event.set WriterEvent.END_INFER_TIME (.dt s)).hasKey
      WriterEvent.RESULT_EXTRA_DATA = true) :
    (∀ m, (v3io_write_application_event (.framesError m) event).err = none ∧
      (v3io_write_application_event (.framesError m) event).logs =
        ["Could not write drift measures to TSDB: " ++ m]) ∧
    (∀ m, (v3io_write_application_event (.otherError m) event).err =
      some (.otherError m)) ∧
    (∀ outcome, (v3io_write_application_event outcome event).effects.countP
      Effect.isTsdbWrite = 1) := by
  refine ⟨fun m => ?_, fun m => ?_, fun outcome => ?_⟩
  · exact ⟨by simp [v3io_write_application_event, hend, hx],
      by simp [v3io_write_application_event, hend, hx]⟩
  · simp [v3io_write_application_event, hend, hx]
  · cases outcome <;>
      simp [v3io_write_application_event, hend, hx, List.countP, List.countP.go,
        Effect.isTsdbWrite]

/-- C3, amended witness: the concrete sample event; the frames failure is
swallowed with a log line, the non-frames failure propagates. -/
theorem claim_C3_amended_witness :
    ((v3io_write_application_event (.framesError "boom") (sampleEvent 2)).err = none ∧
      (v3io_write_application_event (.framesError "boom") (sampleEvent 2)).logs =
        ["Could not write drift measures to TSDB: boom"]) ∧
    (v3io_write_application_event (.otherError "io down") (sampleEvent 2)).err =
      some (.otherError "io down") :=
  ⟨(claim_C3_amended (sampleEvent 2) "2023-09-19 16:26:06.501084"
      (by decide) (by decide)).1 "boom",
   (claim_C3_amended (sampleEvent 2) "2023-09-19 16:26:06.501084"
      (by decide) (by decide)).2.1 "io down"⟩

/-! ## The KV metadata update (`ModelMonitoringWriter._update_kv_db`,
`writer.py` lines 186–238)

Source behavior: copy the event; `pop` the endpoint id, application name and
result name from the copy; update the KV record at
`table_path = v3io_path + endpoint_id`, `key = application_name`, with the one
attribute `{result_name: json.dumps(copy)}`; when the store type is V3IO KV
and the endpoint id has not been seen, additionally create the KV schema
(`_generate_kv_schema`), which raises `MLRunBadRequestError` unless the client
answers OK, and otherwise records the endpoint id in the per-writer seen set. -/

structure WriterCfg where
  v3ioContainer : String
  v3ioPath : String
  storeTypeIsV3ioNoSql : Bool
  schemaCreateOk : Bool
  framesOutcome : FramesOutcome
  deriving Repr, DecidableEq

structure KvResult where
  effects : List Effect
  logs : List String
  err : Option PyErr
  callerEvent : PyDict
  kvSchemas : List String
  deriving Repr, DecidableEq

/-- `ModelMonitoringWriter._update_kv_db`. The first statement rebinds the
local name to `AppResultEvent(event.copy())`, so the three pops act on the
copy and the caller's dict is returned unchanged. -/
def update_kv_db (cfg : WriterCfg) (kvSchemas : List String) (event : PyDict) :
    KvResult :=
  match event.get WriterEvent.ENDPOINT_ID with
  | none => ⟨[], [], some .keyError, event, kvSchemas⟩
  | some epVal =>
    let copy₁ := event.remove WriterEvent.ENDPOINT_ID
    match copy₁.get WriterEvent.APPLICATION_NAME with
    | none => ⟨[], [], some .keyError, event, kvSchemas⟩
    | some appVal =>
      let copy₂ := copy₁.remove WriterEvent.APPLICATION_NAME
      match copy₂.get WriterEvent.RESULT_NAME with
      | none => ⟨[], [], some .keyError, event, kvSchemas⟩
      | some nameVal =>
        let copy₃ := copy₂.remove WriterEvent.RESULT_NAME
        match jsonDumps (.obj copy₃) with
        | .error e => ⟨[], [], some e, event, kvSchemas⟩
        | .ok dumped =>
          match epVal with
          | .str epId =>
            let upd := Effect.kvUpdate cfg.v3ioContainer (cfg.v3ioPath ++ epId)
              appVal nameVal dumped
            if cfg.storeTypeIsV3ioNoSql && !(kvSchemas.contains epId) then
              let sch := Effect.kvCreateSchema cfg.v3ioContainer
                (cfg.v3ioPath ++ epId) WriterEvent.APPLICATION_NAME
              if cfg.schemaCreateOk then
                ⟨[upd, sch],
                  ["Generated V3IO KV schema successfully",
                   "Updated V3IO KV successfully"],
                  none, event, kvSchemas ++ [epId]⟩
              else
                ⟨[upd, sch], [],
                  some (.badRequestError ("Couldn\x27t infer schema for endpoint " ++
                    epId ++ " which is required for Grafana dashboards")),
                  event, kvSchemas⟩
            else ⟨[upd], [], none, event, kvSchemas⟩
          | _ => ⟨[], [], some .typeError, event, kvSchemas⟩

/-! ## The per-event pipeline (`ModelMonitoringWriter.do`, `writer.py`
lines 281–287): reconstruct, then `_update_tsdb`, then `_update_kv_db`, then
`_Notifier(...).notify()`, strictly in that order, each step starting only
after the previous returned without an exception. -/

structure DoResult where
  effects : List Effect
  logs : List String
  err : Option PyErr
  kvSchemas : List String
  deriving Repr, DecidableEq

/-- `ModelMonitoringWriter.do` with the V3IO frames time-series store resolved
by `_update_tsdb` (the writer under `tsdb_store_type = V3IO_TSDB`). -/
def writer_do (cfg : WriterCfg) (loads : String → Option PyVal)
    (kvSchemas : List String) (raw : RawEvent) : DoResult :=
  match reconstruct_event loads raw with
  | .error e => ⟨[], [], some e, kvSchemas⟩
  | .ok event =>
    let ts := v3io_write_application_event cfg.framesOutcome event
    match ts.err with
    | some e => ⟨ts.effects, ts.logs, some e, kvSchemas⟩
    | none =>
      let kv := update_kv_db cfg kvSchemas event
      match kv.err with
      | some e => ⟨ts.effects ++ kv.effects, ts.logs ++ kv.logs, some e, kv.kvSchemas⟩
      | none =>
        let nt := Notifier.notify event
        ⟨ts.effects ++ kv.effects ++ nt.effects, ts.logs ++ kv.logs ++ nt.logs,
          nt.err, kv.kvSchemas⟩

def Effect.isKvEffect : Effect → Bool
  | .kvUpdate _ _ _ _ _ => true
  | .kvCreateSchema _ _ _ => true
  | _ => false

def Effect.isPush : Effect → Bool
  | .push _ _ => true
  | _ => false

theorem v3io_write_effects_tsdb (o : FramesOutcome) (ev : PyDict) :
    ∀ e ∈ (v3io_write_application_event o ev).effects, e.isTsdbWrite = true := by
  unfold v3io_write_application_event
  dsimp only
  repeat' split
  all_goals simp [Effect.isTsdbWrite]

theorem v3io_write_err_none_effects (o : FramesOutcome) (ev : PyDict) :
    (v3io_write_application_event o ev).err = none →
    (v3io_write_application_event o ev).effects ≠ [] := by
  unfold v3io_write_application_event
  dsimp only
  repeat' split
  all_goals simp

theorem update_kv_effects_kv (cfg : WriterCfg) (schemas : List String)
    (ev : PyDict) :
    ∀ e ∈ (update_kv_db cfg schemas ev).effects, e.isKvEffect = true := by
  unfold update_kv_db
  dsimp only
  repeat' split
  all_goals simp [Effect.isKvEffect]

theorem update_kv_err_none_effects (cfg : WriterCfg) (schemas : List String)
    (ev : PyDict) :
    (update_kv_db cfg schemas ev).err = none →
    (update_kv_db cfg schemas ev).effects ≠ [] := by
  unfold update_kv_db
  dsimp only
  repeat' split
  all_goals simp

theorem notify_effects_push (ev : PyDict) :
    ∀ e ∈ (Notifier.notify ev).effects, e.isPush = true := by
  unfold Notifier.notify
  repeat' split
  all_goals simp [Effect.isPush]

theorem notify_err_none_or (ev : PyDict) :
    (Notifier.notify ev).err = none → (Notifier.notify ev).effects = [] ∨
      ∃ m, (Notifier.notify ev).effects = [Effect.push m severityWarning] := by
  unfold Notifier.notify
  repeat' split
  all_goals simp

/-- C6: for every raw event and backend behavior, the effect trace of
`ModelMonitoringWriter.do` decomposes into a time-series segment, then a
KV-metadata segment, then a notification segment, in that order; a nonempty
metadata segment requires a nonempty (earlier) time-series segment, and a
nonempty notification segment requires nonempty metadata and time-series
segments — so no metadata write or notification occurs for an event whose
time-series write did not happen first. -/
theorem claim_C6 (cfg : WriterCfg) (loads : String → Option PyVal)
    (schemas : List String) (raw : RawEvent) :
    ∃ t k p, (writer_do cfg loads schemas raw).effects = t ++ k ++ p ∧
      (∀ e ∈ t, e.isTsdbWrite = true) ∧ (∀ e ∈ k, e.isKvEffect = true) ∧
      (∀ e ∈ p, e.isPush = true) ∧
      (k ≠ [] → t ≠ []) ∧ (p ≠ [] → k ≠ [] ∧ t ≠ []) := by
  rcases hre : reconstruct_event loads raw with e | event
  · exact ⟨[], [], [], by simp [writer_do, hre], by simp, by simp, by simp,
      by simp, by simp⟩
  · rcases hts : (v3io_write_application_event cfg.framesOutcome event).err with _ | e
    · rcases hkv : (update_kv_db cfg schemas event).err with _ | e
      · refine ⟨(v3io_write_application_event cfg.framesOutcome event).effects,
          (update_kv_db cfg schemas event).effects,
          (Notifier.notify event).effects, by simp [writer_do, hre, hts, hkv],
          v3io_write_effects_tsdb _ _, update_kv_effects_kv _ _ _,
          notify_effects_push _, fun _ => v3io_write_err_none_effects _ _ hts,
          fun _ => ⟨update_kv_err_none_effects _ _ _ hkv,
            v3io_write_err_none_effects _ _ hts⟩⟩
      · refine ⟨(v3io_write_application_event cfg.framesOutcome event).effects,
          (update_kv_db cfg schemas event).effects, [],
          by simp [writer_do, hre, hts, hkv], v3io_write_effects_tsdb _ _,
          update_kv_effects_kv _ _ _, by simp,
          fun _ => v3io_write_err_none_effects _ _ hts, by simp⟩
    · exact ⟨(v3io_write_application_event cfg.framesOutcome event).effects, [], [],
        by simp [writer_do, hre, hts], v3io_write_effects_tsdb _ _, by simp,
        by simp, by simp, by simp⟩

/-- C10: both mutating store calls act on a copy. (i)–(ii): the caller's event
dict is unchanged by `_update_kv_db` and by the frames
`write_application_event`. (iii): the KV update really pops the endpoint id,
application name and result name from its copy — the attribute written is the
serialization of the event with exactly those three fields removed, at the
path derived from the popped endpoint id. (iv): the frames write really
mutates its copy — the row written is the event with the end-infer time
converted and the extra-data field deleted. -/
theorem claim_C10 :
    (∀ (cfg : WriterCfg) (schemas : List String) (event : PyDict),
      (update_kv_db cfg schemas event).callerEvent = event) ∧
    (∀ (outcome : FramesOutcome) (event : PyDict),
      (v3io_write_application_event outcome event).callerEvent = event) ∧
    (∀ (cfg : WriterCfg) (schemas : List String) (event : PyDict)
        (ep : String) (app nm : PyVal) (dumped : String),
      event.get WriterEvent.ENDPOINT_ID = some (.str ep) →
      (event.remove WriterEvent.ENDPOINT_ID).get WriterEvent.APPLICATION_NAME =
        some app →
      ((event.remove WriterEvent.ENDPOINT_ID).remove
        WriterEvent.APPLICATION_NAME).get WriterEvent.RESULT_NAME = some nm →
      jsonDumps (.obj (((event.remove WriterEvent.ENDPOINT_ID).remove
        WriterEvent.APPLICATION_NAME).remove WriterEvent.RESULT_NAME)) =
        .ok dumped →
      Effect.kvUpdate cfg.v3ioContainer (cfg.v3ioPath ++ ep) app nm dumped ∈
        (update_kv_db cfg schemas event).effects) ∧
    (∀ (outcome : FramesOutcome) (event : PyDict) (s : String),
      event.get WriterEvent.END_INFER_TIME = some (.str s) →
      (event.set WriterEvent.END_INFER_TIME (.dt s)).hasKey
        WriterEvent.RESULT_EXTRA_DATA = true →
      Effect.tsdbWrite ((event.set WriterEvent.END_INFER_TIME (.dt s)).remove
        WriterEvent.RESULT_EXTRA_DATA) v3ioTsdbIndexCols ∈
        (v3io_write_application_event outcome event).effects) := by
  refine ⟨?_, ?_, ?_, ?_⟩
  · intro cfg schemas event
    unfold update_kv_db
    dsimp only
    repeat' split
    all_goals rfl
  · intro outcome event
    unfold v3io_write_application_event
    dsimp only
    repeat' split
    all_goals rfl
  · intro cfg schemas event ep app nm dumped h₁ h₂ h₃ h₄
    simp only [update_kv_db, h₁, h₂, h₃, h₄]
    split
    · split <;> simp
    · simp
  · intro outcome event s h₁ h₂
    cases outcome <;> simp [v3io_write_application_event, h₁, h₂]

/-- A concrete writer configuration for the witnesses. -/
def sampleCfg : WriterCfg :=
  ⟨"users", "pipelines/proj/monitoring-apps/", true, true, .success⟩

/-- C10, witness: at the concrete sample event, both calls leave the caller's
dict untouched while the KV attribute and the written row are computed from
the mutated copies. -/
theorem claim_C10_witness :
    (update_kv_db sampleCfg [] (sampleEvent 2)).callerEvent = sampleEvent 2 ∧
    (v3io_write_application_event .success (sampleEvent 2)).callerEvent =
      sampleEvent 2 ∧
    Effect.kvUpdate "users" ("pipelines/proj/monitoring-apps/" ++ "ep-1")
        (.str "dummy-app") (.str "data-drift-0")
        ("\x7b\"start_infer_time\": \"2023-09-19 14:26:06.501084\", \"end_infer_time\": \"2023-09-19 16:26:06.501084\", \"result_kind\": 0, \"result_value\": 0, \"result_status\": 2, \"result_extra_data\": \"\", \"current_stats\": \x7b\x7d\x7d") ∈
      (update_kv_db sampleCfg [] (sampleEvent 2)).effects ∧
    Effect.tsdbWrite (((sampleEvent 2).set WriterEvent.END_INFER_TIME
        (.dt "2023-09-19 16:26:06.501084")).remove WriterEvent.RESULT_EXTRA_DATA)
        v3ioTsdbIndexCols ∈
      (v3io_write_application_event .success (sampleEvent 2)).effects :=
  ⟨claim_C10.1 sampleCfg [] (sampleEvent 2),
   claim_C10.2.1 .success (sampleEvent 2),
   claim_C10.2.2.1 sampleCfg [] (sampleEvent 2) "ep-1" (.str "dummy-app")
     (.str "data-drift-0") _ (by decide) (by decide) (by decide) rfl,
   claim_C10.2.2.2 .success (sampleEvent 2) "2023-09-19 16:26:06.501084"
     (by decide) (by decide)⟩

/-! ## C8 — `TDEngineConnector.read_metrics_data`
(`tdengine_connector.py`, lines 377–439)

The connector builds a disjunctive filter over the requested (application,
name) pairs, queries the metrics or app-results supertable, and folds the
returned data frame with `df_to_metrics_values` / `df_to_results_values`. The
query result is the `rows` parameter of the embedding; the `type` argument
only selects the supertable and the name column, the fold shape is identical
for both. -/

structure MonitoringMetric where
  app : String
  name : String
  deriving Repr, DecidableEq

/-- One row of the data frame returned by the TSDB query: tag columns
(application name, metric/result name), the time index, and the measured
value. -/
structure TsdbRow (α : Type) where
  app : String
  name : String
  time : String
  value : α
  deriving Repr, DecidableEq

inductive MetricOutcome (α : Type) where
  | values (app name : String) (vals : List (String × α))
  | noData (app name : String)
  deriving Repr, DecidableEq

def MetricOutcome.outApp {α : Type} : MetricOutcome α → String
  | .values app _ _ => app
  | .noData app _ => app

def MetricOutcome.outName {α : Type} : MetricOutcome α → String
  | .values _ nm _ => nm
  | .noData _ nm => nm

def MetricOutcome.isNoData {α : Type} : MetricOutcome α → Bool
  | .values _ _ _ => false
  | .noData _ _ => true

/-- Modelled from the spec: the data-frame fold `df_to_metrics_values` /
`df_to_results_values` (the helpers are declared on the connector base class,
which is not among the sources). §4.3: fold the tabular result into one
value-series per requested (application, name); any requested metric with no
matching rows is reported as a distinct "no data" outcome rather than
omitted. -/
def df_to_metrics_values {α : Type} (metrics : List MonitoringMetric)
    (rows : List (TsdbRow α)) : List (MetricOutcome α) :=
  metrics.map fun m =>
    let matching := rows.filter fun r => r.app == m.app && r.name == m.name
    if matching.isEmpty then .noData m.app m.name
    else .values m.app m.name (matching.map fun r => (r.time, r.value))

/-- `read_metrics_data`: query the supertable for the requested metrics (the
result set is `rows`) and fold it with the data-frame handler. -/
def read_metrics_data {α : Type} (rows : List (TsdbRow α))
    (metrics : List MonitoringMetric) : List (MetricOutcome α) :=
  df_to_metrics_values metrics rows

/-- C8: `read_metrics_data` is total over the requested metric list: the
output length equals the requested-metric count, the i-th outcome addresses
the i-th requested metric, and it is the distinct "no data" outcome exactly
when zero rows match that metric — no requested metric is omitted. -/
theorem claim_C8 {α : Type} (rows : List (TsdbRow α))
    (metrics : List MonitoringMetric) (i : Nat) (h : i < metrics.length) :
    (read_metrics_data rows metrics).length = metrics.length ∧
    ∃ h' : i < (read_metrics_data rows metrics).length,
      ((read_metrics_data rows metrics).get ⟨i, h'⟩).outApp =
        (metrics.get ⟨i, h⟩).app ∧
      ((read_metrics_data rows metrics).get ⟨i, h'⟩).outName =
        (metrics.get ⟨i, h⟩).name ∧
      (((read_metrics_data rows metrics).get ⟨i, h'⟩).isNoData = true ↔
        rows.filter (fun r => r.app == (metrics.get ⟨i, h⟩).app &&
          r.name == (metrics.get ⟨i, h⟩).name) = []) := by
  have hlen : (read_metrics_data rows metrics).length = metrics.length := by
    simp [read_metrics_data, df_to_metrics_values]
  refine ⟨hlen, hlen ▸ h, ?_, ?_, ?_⟩ <;>
    · simp only [read_metrics_data, df_to_metrics_values, List.get_eq_getElem,
        List.getElem_map]
      split <;>
        simp_all [MetricOutcome.outApp, MetricOutcome.outName,
          MetricOutcome.isNoData, List.isEmpty_iff]

/-- C8, witness: two requested metrics, rows matching only the first — the
output has one entry per requested metric and the second is the "no data"
outcome. -/
theorem claim_C8_witness :
    (read_metrics_data [TsdbRow.mk "appA" "m1" "t0" (0 : Int)]
      [⟨"appA", "m1"⟩, ⟨"appA", "m2"⟩]).length = 2 ∧
    ∃ h' : 1 < (read_metrics_data [TsdbRow.mk "appA" "m1" "t0" (0 : Int)]
        [⟨"appA", "m1"⟩, ⟨"appA", "m2"⟩]).length,
      ((read_metrics_data [TsdbRow.mk "appA" "m1" "t0" (0 : Int)]
        [⟨"appA", "m1"⟩, ⟨"appA", "m2"⟩]).get ⟨1, h'⟩).outApp = "appA" ∧
      ((read_metrics_data [TsdbRow.mk "appA" "m1" "t0" (0 : Int)]
        [⟨"appA", "m1"⟩, ⟨"appA", "m2"⟩]).get ⟨1, h'⟩).outName = "m2" ∧
      (((read_metrics_data [TsdbRow.mk "appA" "m1" "t0" (0 : Int)]
        [⟨"appA", "m1"⟩, ⟨"appA", "m2"⟩]).get ⟨1, h'⟩).isNoData = true ↔
        List.filter (fun r => r.app == "appA" && r.name == "m2")
          [TsdbRow.mk "appA" "m1" "t0" (0 : Int)] = []) :=
  claim_C8 [TsdbRow.mk "appA" "m1" "t0" (0 : Int)]
    [⟨"appA", "m1"⟩, ⟨"appA", "m2"⟩] 1 (by decide)

/-! ## C9 — `_ModelEndpointSQLStore.list_model_endpoints`
(`sql_model_endpoint_store.py`, lines 233–389)

The query starts from `filter_by(project=self.project)`; the model, function,
uids and top-level filters are added with `query.filter(...)` (conjunctive
composition), the uids and top-level filters being `or_` disjunctions over
their value lists (`_filter_values` with `combined=False`); the label filter
is applied per fetched row: `if labels and labels != json.dumps(row labels):
continue` — a raw string comparison against the serialization of the stored
blob. Python truthiness guards each filter (`if model:`), so `None` and the
empty string/list skip the filter. -/

structure EndpointRecord where
  endpoint_id : String
  project : String
  model : String
  function : String
  endpoint_type : String
  labels : String
  deriving Repr, DecidableEq

structure ListFilters where
  model : Option String
  function : Option String
  labels : Option String
  top_level : Bool
  uids : Option (List String)
  deriving Repr, DecidableEq

/-- Modelled from the spec: the endpoint-type values of top-level endpoints —
`NODE_EP` (a single model endpoint) and `ROUTER` (§3: single vs router vs
router-child; the `EndpointType` enum module is not among the sources). -/
def nodeEpType : String := "1"

/-- Modelled from the spec: see `nodeEpType`. -/
def routerEpType : String := "2"

/-- `json.dumps` of the stored label blob (a string column value). -/
def labelDump (s : String) : String := "\"" ++ escapeJson s ++ "\""

/-- A string filter guarded by Python truthiness (`if model:`): applied only
when the option holds a nonempty string. -/
def applyStrFilter (o : Option String) (proj : EndpointRecord → String)
    (q : List EndpointRecord) : List EndpointRecord :=
  match o with
  | some s => if s ≠ "" then q.filter (fun e => proj e == s) else q
  | none => q

/-- The uids filter (`_filter_values` with `combined=False`): an `or_`
disjunction of id equalities, guarded by Python truthiness of the list. -/
def applyUidsFilter (o : Option (List String)) (q : List EndpointRecord) :
    List EndpointRecord :=
  match o with
  | some l => if l ≠ [] then q.filter (fun e => l.contains e.endpoint_id) else q
  | none => q

/-- The top-level filter: an `or_` disjunction over the two top-level endpoint
types. -/
def applyTopLevelFilter (b : Bool) (q : List EndpointRecord) :
    List EndpointRecord :=
  if b then
    q.filter (fun e => e.endpoint_type == nodeEpType || e.endpoint_type == routerEpType)
  else q

/-- The per-row label check of the conversion loop: `continue` unless the
caller-supplied filter string equals `json.dumps` of the stored blob. -/
def applyLabelsFilter (o : Option String) (q : List EndpointRecord) :
    List EndpointRecord :=
  q.filter fun e =>
    match o with
    | some ls => if ls ≠ "" then ls == labelDump e.labels else true
    | none => true

/-- `list_model_endpoints`: project scope, then the model, function, uids and
top-level filters, then the per-row label check. -/
def list_model_endpoints (project : String) (table : List EndpointRecord)
    (f : ListFilters) : List EndpointRecord :=
  applyLabelsFilter f.labels
    (applyTopLevelFilter f.top_level
      (applyUidsFilter f.uids
        (applyStrFilter f.function (fun e => e.function)
          (applyStrFilter f.model (fun e => e.model)
            (table.filter (fun e => e.project == project))))))

theorem mem_applyStrFilter {o : Option String} {proj : EndpointRecord → String}
    {q : List EndpointRecord} {e : EndpointRecord} :
    e ∈ applyStrFilter o proj q ↔
      e ∈ q ∧ (∀ s, o = some s → s ≠ "" → proj e = s) := by
  cases o with
  | none => simp [applyStrFilter]
  | some s =>
    by_cases hs : s = "" <;> simp [applyStrFilter, hs, List.mem_filter]

theorem mem_applyUidsFilter {o : Option (List String)}
    {q : List EndpointRecord} {e : EndpointRecord} :
    e ∈ applyUidsFilter o q ↔
      e ∈ q ∧ (∀ l, o = some l → l ≠ [] → e.endpoint_id ∈ l) := by
  cases o with
  | none => simp [applyUidsFilter]
  | some l =>
    by_cases hl : l = [] <;> simp [applyUidsFilter, hl, List.mem_filter]

theorem mem_applyTopLevelFilter {b : Bool} {q : List EndpointRecord}
    {e : EndpointRecord} :
    e ∈ applyTopLevelFilter b q ↔
      e ∈ q ∧ (b = true →
        (e.endpoint_type = nodeEpType ∨ e.endpoint_type = routerEpType)) := by
  cases b <;> simp [applyTopLevelFilter, List.mem_filter]

theorem mem_applyLabelsFilter {o : Option String} {q : List EndpointRecord}
    {e : EndpointRecord} :
    e ∈ applyLabelsFilter o q ↔
      e ∈ q ∧ (∀ ls, o = some ls → ls ≠ "" → ls = labelDump e.labels) := by
  cases o with
  | none => simp [applyLabelsFilter, List.mem_filter]
  | some ls =>
    by_cases hs : ls = "" <;>
      simp [applyLabelsFilter, hs, List.mem_filter]

/-- C9: membership in the filtered listing is characterized conjunctively —
the endpoint belongs to the table, is in the project scope, satisfies the
model and function equality filters and the top-level filter (each composing
conjunctively), its id belongs to the explicit id list when one is supplied
(the id list composing disjunctively within, conjunctively with the rest),
and the caller's label filter string equals — as a raw string — the
serialization of the record's label blob (no semantic key/value matching). -/
theorem claim_C9 (project : String) (table : List EndpointRecord)
    (f : ListFilters) (e : EndpointRecord) :
    e ∈ list_model_endpoints project table f ↔
      e ∈ table ∧ e.project = project ∧
      (∀ m, f.model = some m → m ≠ "" → e.model = m) ∧
      (∀ fn, f.function = some fn → fn ≠ "" → e.function = fn) ∧
      (∀ l, f.uids = some l → l ≠ [] → e.endpoint_id ∈ l) ∧
      (f.top_level = true →
        (e.endpoint_type = nodeEpType ∨ e.endpoint_type = routerEpType)) ∧
      (∀ ls, f.labels = some ls → ls ≠ "" → ls = labelDump e.labels) := by
  unfold list_model_endpoints
  rw [mem_applyLabelsFilter, mem_applyTopLevelFilter, mem_applyUidsFilter,
    mem_applyStrFilter, mem_applyStrFilter]
  simp only [List.mem_filter, beq_iff_eq, and_assoc]

/-- Concrete endpoints and filters for the C9 witness, mirroring the spec's
scenario: endpoint A with model `m1`, endpoint B with model `m2`. -/
def epA : EndpointRecord :=
  ⟨"id-A", "proj", "m1", "f1", "1", "\x7b\x27env\x27: \x27prod\x27\x7d"⟩

/-- See `epA`. -/
def epB : EndpointRecord :=
  ⟨"id-B", "proj", "m2", "f1", "1", "\x7b\x27env\x27: \x27prod\x27\x7d"⟩

/-- The filter `list(model="m1")`. -/
def filterM1 : ListFilters := ⟨some "m1", none, none, false, none⟩

/-- The filter `list(ids=[A.id, C.id])` where no endpoint has C's id. -/
def filterIds : ListFilters := ⟨none, none, none, false, some ["id-A", "id-C"]⟩

/-- C9, witness: `list(model="m1")` over {A, B} returns exactly {A} (B is
excluded by the model conjunct of the characterization), and
`list(ids=[A.id, C.id])` returns exactly {A}. -/
theorem claim_C9_witness :
    list_model_endpoints "proj" [epA, epB] filterM1 = [epA] ∧
    list_model_endpoints "proj" [epA, epB] filterIds = [epA] ∧
    epB ∉ list_model_endpoints "proj" [epA, epB] filterM1 :=
  ⟨rfl, rfl, fun h => absurd
    (((claim_C9 "proj" [epA, epB] filterM1 epB).mp h).2.2.1 "m1" rfl (by decide))
    (by decide)⟩

/-- C6, witness: the decomposition at a concrete configuration and raw
event. -/
theorem claim_C6_witness :
    ∃ t k p, (writer_do sampleCfg loadsExample []
        (.dict (rawSampleEvent "\x7b\"k\": 1\x7d"))).effects = t ++ k ++ p ∧
      (∀ e ∈ t, e.isTsdbWrite = true) ∧ (∀ e ∈ k, e.isKvEffect = true) ∧
      (∀ e ∈ p, e.isPush = true) ∧
      (k ≠ [] → t ≠ []) ∧ (p ≠ [] → k ≠ [] ∧ t ≠ []) :=
  claim_C6 sampleCfg loadsExample [] (.dict (rawSampleEvent "\x7b\"k\": 1\x7d"))
